import Mathlib

/-!
Shallow embedding of src/gui.py (TheSepulchre/python-gui), the themed
desktop shell with a polling-free data table and an animated page stack.

The embedding covers the parts of the program the claims are about:

* `DataTable.run_query` (src/gui.py lines 180-205): one HTTP POST to the
  bridge endpoint, then repopulating a `QTableWidget`. The Qt table is
  modelled as `TableState` (row count, column count, header labels, a cell
  map), and the Qt mutators `setRowCount`, `setColumnCount`,
  `setHorizontalHeaderLabels`, `setItem` as pure state transformers with
  Qt's documented semantics (shrinking a dimension discards the items
  outside it; out-of-range `setItem` is ignored; header labels beyond the
  given list keep their previous/default value).
* The outcome of the bridge interaction is `BridgeOutcome`: the POST can
  raise (netError), `raise_for_status` can raise (httpError), `res.json()`
  can raise (parseError), or a JSON array of row objects is produced
  (`ok data`). A row object is the Python dict the JSON parser returns:
  an association list of string keys to scalar values, looked up as a dict.
* Python exception flow inside `run_query` is the `Except` monad: the
  `try:` body is `run_query_body`, whose error value carries the exception
  and the table state at raise time (Python mutations before a raise
  persist); the `except Exception` handler is the wrapper `run_query`,
  which turns any error into a shown error dialog (the returned `Bool`).
* `AnimatedStack.setCurrentIndexAnimated` (src/gui.py lines 265-282) over
  an `AnimatedStack` state: current index, the stack widget's geometry,
  the page widgets' geometries and shown flags, and the animation object
  (easing curve and duration fixed in `__init__`; the running-animation
  list is emptied by `anim.stop()` and extended by `anim.start()`).
* `ModernWindow.__init__` (src/gui.py lines 333-348): four pages added to
  the stack and four sidebar buttons wired to indices 0..3.
-/

/-- Scalar JSON value as decoded by Python (`res.json()`): the cell values
of the row objects the bridge returns. -/
inductive PyVal
  | str (s : String)
  | int (n : Int)
  | bool (b : Bool)
  | none
deriving DecidableEq, Repr

/-- Python `str()` on a decoded scalar JSON value (src/gui.py line 200,
`val = str(row[col_name])`). -/
def pyStr : PyVal → String
  | .str s => s
  | .int n => toString n
  | .bool b => if b then "True" else "False"
  | .none => "None"

/-- A row object from the bridge: the items of the Python dict, in key
insertion order (Python dicts preserve order; keys are unique). -/
abbrev Row : Type := List (String × PyVal)

/-- Python dict lookup `row[col_name]`, as an option (missing key =
`KeyError`). -/
def lookupRow (row : Row) (k : String) : Option PyVal :=
  (row.find? (fun p => p.1 == k)).map (fun p => p.2)

/-- State of the `QTableWidget` held by `DataTable`: row/column counts,
header labels (`none` = Qt's default numbered label, i.e. no label ever
set for that column), and the cell items. -/
structure TableState where
  rowCount : Nat
  colCount : Nat
  headers : List (Option String)
  cells : Nat → Nat → Option String

/-- Qt `QTableWidget.setRowCount(n)`: rows at index ≥ n are removed along
with their items; growing adds empty rows. -/
def setRowCount (st : TableState) (n : Nat) : TableState :=
  { st with
    rowCount := n
    cells := fun r c => if r < n then st.cells r c else none }

/-- Qt `QTableWidget.setColumnCount(n)`: columns at index ≥ n are removed
along with their items and header labels; new columns have the default
label. -/
def setColumnCount (st : TableState) (n : Nat) : TableState :=
  { st with
    colCount := n
    headers := (List.range n).map (fun i => st.headers.getD i none)
    cells := fun r c => if c < n then st.cells r c else none }

/-- Qt `QTableWidget.setHorizontalHeaderLabels(ls)`: sets the label of
column i to ls[i] for i < min(len(ls), columnCount); other columns keep
their label. -/
def setHorizontalHeaderLabels (st : TableState) (ls : List String) : TableState :=
  { st with
    headers := (List.range st.colCount).map (fun i =>
      (ls[i]?).or (st.headers.getD i none)) }

/-- Qt `QTableWidget.setItem(r, c, item)`: stores the item when (r, c) is
inside the current row/column counts, otherwise does nothing. -/
def setItem (st : TableState) (r c : Nat) (s : String) : TableState :=
  if r < st.rowCount ∧ c < st.colCount then
    { st with cells := fun r' c' => if r' = r ∧ c' = c then some s else st.cells r' c' }
  else st

/-- The item text at a cell, if an item is present. -/
def getCell (st : TableState) (r c : Nat) : Option String :=
  st.cells r c

/-- Python exceptions that can be raised inside the `try:` body of
`run_query`. -/
inductive PyExn
  | requestException
  | httpStatusError (status : Nat)
  | jsonDecodeError
  | keyError (k : String)
deriving DecidableEq, Repr

/-- Outcome of the bridge interaction in `run_query`: `requests.post` can
raise; `res.raise_for_status()` can raise; `res.json()` can raise; or a
JSON array of row objects is decoded. -/
inductive BridgeOutcome
  | netError
  | httpError (status : Nat)
  | parseError
  | ok (data : List Row)

/-- True on the outcomes in which the network request, the HTTP status
check, or JSON parsing raises. -/
def BridgeOutcome.isFailure : BridgeOutcome → Bool
  | .netError => true
  | .httpError _ => true
  | .parseError => true
  | .ok _ => false

/-- The HTTP request `requests.post(self.endpoint, json=\x7b"query": query\x7d)`
issues: the URL and the JSON body's fields. -/
structure HttpRequest where
  url : String
  jsonBody : List (String × String)
deriving DecidableEq, Repr

/-- The per-instance state of `DataTable` fixed at construction
(src/gui.py lines 144-146). -/
structure DataTable where
  title : String
  endpoint : String
deriving DecidableEq, Repr

/-- `DataTable.__init__(title, endpoint)` stores the endpoint on the
instance; nothing later reassigns it. -/
def mkDataTable (title : String) (endpoint : String) : DataTable :=
  { title := title, endpoint := endpoint }

/-- Default constructor arguments of `DataTable` (src/gui.py line 144). -/
def defaultDataTableEndpoint : String := "http://localhost:3000/query"

/-- The predefined label/query pairs of `self.buttons`
(src/gui.py lines 166-171). -/
def dataTableButtons : List (String × String) :=
  [("Drumming", "SELECT TOP 10 * FROM dbo.batches"),
   ("Ewald", "SELECT TOP 10 * FROM dbo.ewald"),
   ("Convo", "SELECT TOP 10 * FROM dbo.convo"),
   ("Mixing", "SELECT TOP 10 * FROM dbo.Mixing")]

/-- The inner loop body of `run_query` over one row (src/gui.py lines
199-201): for each column name in order, look the key up in the row dict
(a missing key raises `KeyError`) and store the stringified value at
(rIdx, cIdx). The error value carries the table state at raise time. -/
def populateRow (st : TableState) (row : Row) (cols : List String)
    (rIdx cIdx : Nat) : Except (PyExn × TableState) TableState :=
  match cols with
  | [] => .ok st
  | c :: cs =>
    match lookupRow row c with
    | some v => populateRow (setItem st rIdx cIdx (pyStr v)) row cs rIdx (cIdx + 1)
    | Option.none => .error (.keyError c, st)

/-- The outer loop of `run_query` (src/gui.py line 198): rows in order,
starting at row index rIdx. -/
def populate (st : TableState) (rows : List Row) (cols : List String)
    (rIdx : Nat) : Except (PyExn × TableState) TableState :=
  match rows with
  | [] => .ok st
  | row :: rest =>
    match populateRow st row cols rIdx 0 with
    | .ok st' => populate st' rest cols (rIdx + 1)
    | .error e => .error e

/-- The `try:` body of `run_query` (src/gui.py lines 182-201), after the
POST has been issued: the three fallible bridge steps, then — on a decoded
array — the empty-array branch (lines 187-191) or the rebuild branch
(lines 193-201): `columns = list(data[0].keys())`, `setColumnCount`,
`setRowCount`, `setHorizontalHeaderLabels`, then the population loops. -/
def run_query_body (st : TableState) (out : BridgeOutcome) :
    Except (PyExn × TableState) TableState :=
  match out with
  | .netError => .error (.requestException, st)
  | .httpError s => .error (.httpStatusError s, st)
  | .parseError => .error (.jsonDecodeError, st)
  | .ok data =>
    match data with
    | [] =>
      .ok (setHorizontalHeaderLabels
            (setColumnCount (setRowCount st 0) 1) ["No data"])
    | first :: rest =>
      let columns := first.map Prod.fst
      let st1 := setColumnCount st columns.length
      let st2 := setRowCount st1 (first :: rest).length
      let st3 := setHorizontalHeaderLabels st2 columns
      populate st3 (first :: rest) columns 0

/-- `DataTable.run_query(query)` (src/gui.py lines 180-205): issues the
POST with the query verbatim as the body's "query" field, then runs the
`try:` body; `except Exception` turns any raised exception into a shown
error dialog (the returned `Bool`) and the program continues with the
table state as the body left it. -/
def run_query (dt : DataTable) (st : TableState) (query : String)
    (out : BridgeOutcome) : HttpRequest × TableState × Bool :=
  let req : HttpRequest := { url := dt.endpoint, jsonBody := [("query", query)] }
  match run_query_body st out with
  | .ok st' => (req, st', false)
  | .error (_, st') => (req, st', true)

/-- An event source wired to re-run the query on `DataTable`. `__init__`
(src/gui.py lines 166-176) connects one button per predefined query; the
module imports `QTimer` but never instantiates it, so no timer source
exists. -/
inductive UiTrigger
  | buttonClick (label : String) (query : String)
  | timerTick (intervalMs : Nat)
deriving DecidableEq, Repr

/-- Whether a trigger is a repeating timer. -/
def UiTrigger.isTimer : UiTrigger → Bool
  | .timerTick _ => true
  | .buttonClick _ _ => false

/-- All event sources that invoke `DataTable.run_query`, as wired by
`DataTable.__init__` (src/gui.py lines 173-176): exactly the four
predefined-query buttons. -/
def dataTableTriggers : List UiTrigger :=
  dataTableButtons.map (fun p => .buttonClick p.1 p.2)

/-- An integer rectangle, as `QRect` (position and size). -/
structure Rect where
  x : Int
  y : Int
  w : Int
  h : Int
deriving DecidableEq, Repr

/-- `QRect.moveLeft(a)`: move the rectangle horizontally so its left edge
is at coordinate a; the size is unchanged. -/
def Rect.moveLeft (r : Rect) (a : Int) : Rect :=
  { r with x := a }

/-- The easing curves relevant to `AnimatedStack` (`QEasingCurve`). -/
inductive EasingCurve
  | linear
  | inCubic
  | outCubic
deriving DecidableEq, Repr

/-- The configuration of the `QPropertyAnimation` fixed in
`AnimatedStack.__init__` (src/gui.py lines 261-263): easing curve and
duration in milliseconds. -/
structure AnimConfig where
  easing : EasingCurve
  durationMs : Nat
deriving DecidableEq, Repr

/-- One running geometry animation: its start and end rectangles. -/
structure AnimState where
  startVal : Rect
  endVal : Rect
deriving DecidableEq, Repr

/-- State of an `AnimatedStack`: the current page index, the stack
widget's own geometry (the animated property), each page widget's
geometry and shown flag, the animations currently running, and the
animation configuration. -/
structure AnimatedStack where
  currentIndex : Nat
  geometry : Rect
  pages : List Rect
  shown : List Bool
  activeAnims : List AnimState
  animConfig : AnimConfig
deriving DecidableEq, Repr

/-- `anim.stop()`: whatever is running stops. -/
def animStop (_anims : List AnimState) : List AnimState := []

/-- `anim.start()`: the configured animation begins running. -/
def animStart (anims : List AnimState) (a : AnimState) : List AnimState :=
  anims ++ [a]

/-- `AnimatedStack.__init__` (src/gui.py lines 259-263): a fresh stack
with no pages, no running animation, and the animation object configured
with `QEasingCurve.OutCubic` and a 400 ms duration. -/
def mkAnimatedStack (g : Rect) : AnimatedStack :=
  { currentIndex := 0
    geometry := g
    pages := []
    shown := []
    activeAnims := []
    animConfig := { easing := .outCubic, durationMs := 400 } }

/-- `QStackedWidget.addWidget`: appends a page; the first page added
becomes current (index 0, which `mkAnimatedStack` already holds). -/
def addWidget (st : AnimatedStack) (r : Rect) : AnimatedStack :=
  { st with pages := st.pages ++ [r], shown := st.shown ++ [false] }

/-- `AnimatedStack.setCurrentIndexAnimated(index)` (src/gui.py lines
265-282): if the index is already current, return at once; otherwise
compute the slide direction, place the target page at the rectangle whose
left edge is at width·direction (`next_rect.moveLeft(...)`), show it,
stop the animation object, configure it from `next_rect` to the current
geometry, start it, and set the current index. -/
def setCurrentIndexAnimated (st : AnimatedStack) (index : Nat) : AnimatedStack :=
  if index = st.currentIndex then st
  else
    let current_rect := st.geometry
    let direction : Int := if st.currentIndex < index then 1 else -1
    let next_rect := current_rect.moveLeft (current_rect.w * direction)
    { st with
      pages := st.pages.set index next_rect
      shown := st.shown.set index true
      activeAnims := animStart (animStop st.activeAnims)
        { startVal := next_rect, endVal := current_rect }
      currentIndex := index }

/-- A sequence of `setCurrentIndexAnimated` calls in order. -/
def runCalls (st : AnimatedStack) (calls : List Nat) : AnimatedStack :=
  calls.foldl setCurrentIndexAnimated st

/-- The page stack built by `ModernWindow.__init__` (src/gui.py lines
333-342): an `AnimatedStack` with the Home, Production, Logistics and
Settings pages added in that order. -/
def mkModernWindowStack (g p0 p1 p2 p3 : Rect) : AnimatedStack :=
  addWidget (addWidget (addWidget (addWidget (mkAnimatedStack g) p0) p1) p2) p3

/-- The stack indices the sidebar buttons are connected to
(src/gui.py lines 345-348). -/
def modernWindowNavTargets : List Nat := [0, 1, 2, 3]

/-! ### Helper lemmas on the table operations -/

lemma setItem_rowCount (st : TableState) (r c : Nat) (s : String) :
    (setItem st r c s).rowCount = st.rowCount := by
  unfold setItem; split <;> rfl

lemma setItem_colCount (st : TableState) (r c : Nat) (s : String) :
    (setItem st r c s).colCount = st.colCount := by
  unfold setItem; split <;> rfl

lemma setItem_headers (st : TableState) (r c : Nat) (s : String) :
    (setItem st r c s).headers = st.headers := by
  unfold setItem; split <;> rfl

lemma setItem_cells_self (st : TableState) (r c : Nat) (s : String)
    (hr : r < st.rowCount) (hc : c < st.colCount) :
    (setItem st r c s).cells r c = some s := by
  unfold setItem
  rw [if_pos ⟨hr, hc⟩]
  simp

lemma setItem_cells_ne (st : TableState) (r c : Nat) (s : String) (r' c' : Nat)
    (h : ¬(r' = r ∧ c' = c)) :
    (setItem st r c s).cells r' c' = st.cells r' c' := by
  unfold setItem
  split
  · simp only [if_neg h]
  · rfl

lemma headers_or_map (ls : List String) (f : Nat → Option String) :
    (List.range ls.length).map (fun i => (ls[i]?).or (f i)) = ls.map some := by
  induction ls generalizing f with
  | nil => rfl
  | cons a tl ih =>
    rw [List.length_cons, List.range_succ_eq_map, List.map_cons, List.map_map]
    simp only [List.getElem?_cons_zero, Option.or_some, List.map_cons]
    refine congrArg (List.cons (some a)) ?_
    have : ((fun i => ((a :: tl)[i]?).or (f i)) ∘ Nat.succ) =
        fun i => (tl[i]?).or (f (i + 1)) := by
      funext i
      simp [Function.comp]
    rw [this, ih]

lemma headers_full_set (st : TableState) (ls : List String)
    (h : st.colCount = ls.length) :
    (setHorizontalHeaderLabels st ls).headers = ls.map some := by
  unfold setHorizontalHeaderLabels
  simp only [h]
  exact headers_or_map ls _

/-! ### Claims about DataTable.run_query: error paths and the request -/

/-- C2: every exception raised during run_query — from the network
request, the HTTP status check, or JSON parsing — is caught by the
`except Exception` handler, an error dialog is shown (the Bool component
is true), and run_query returns normally instead of propagating the
exception (its embedding is a total function into plain, non-exceptional
results). -/
theorem run_query_catches_failures (dt : DataTable) (st : TableState)
    (q : String) (out : BridgeOutcome) (h : out.isFailure = true) :
    (run_query dt st q out).2.2 = true := by
  cases out with
  | netError => rfl
  | httpError s => rfl
  | parseError => rfl
  | ok data => simp [BridgeOutcome.isFailure] at h

theorem run_query_catches_failures_witness :
    (BridgeOutcome.parseError.isFailure = true) ∧
    (run_query (mkDataTable "Data Viewer" defaultDataTableEndpoint)
      { rowCount := 2, colCount := 1, headers := [some "k"],
        cells := fun _ _ => some "v" }
      "SELECT TOP 10 * FROM dbo.batches" .parseError).2.2 = true :=
  ⟨rfl, run_query_catches_failures _ _ _ _ rfl⟩

/-- C10: run_query is atomic with respect to transport and parse
failures: when the HTTP POST, the HTTP status check, or JSON decoding
raises, the resulting table state is exactly the state before the call —
the grid is only mutated after a response has been decoded. -/
theorem run_query_failure_atomic (dt : DataTable) (st : TableState)
    (q : String) (out : BridgeOutcome) (h : out.isFailure = true) :
    (run_query dt st q out).2.1 = st := by
  cases out with
  | netError => rfl
  | httpError s => rfl
  | parseError => rfl
  | ok data => simp [BridgeOutcome.isFailure] at h

theorem run_query_failure_atomic_witness :
    ((BridgeOutcome.httpError 500).isFailure = true) ∧
    (run_query (mkDataTable "Database Browser" defaultDataTableEndpoint)
      { rowCount := 1, colCount := 2, headers := [some "a", some "b"],
        cells := fun _ _ => some "old" }
      "SELECT TOP 10 * FROM dbo.ewald" (.httpError 500)).2.1 =
      { rowCount := 1, colCount := 2, headers := [some "a", some "b"],
        cells := fun _ _ => some "old" } :=
  ⟨rfl, run_query_failure_atomic _ _ _ _ rfl⟩

/-- C4: run_query sends the query string unchanged as the "query" field
of the JSON POST body, to the endpoint fixed at construction, on every
outcome: the request is never rewritten, escaped, or routed elsewhere. -/
theorem run_query_verbatim_request (title endpoint : String)
    (st : TableState) (q : String) (out : BridgeOutcome) :
    (run_query (mkDataTable title endpoint) st q out).1 =
      { url := endpoint, jsonBody := [("query", q)] } := by
  unfold run_query mkDataTable
  cases h : run_query_body st out with
  | ok st' => simp [h]
  | error e => obtain ⟨e1, e2⟩ := e; simp [h]

/-- C3: when the bridge returns an empty JSON array, run_query sets the
table to zero rows and one column whose header label is "No data", shows
no dialog, and leaves no cell item anywhere in the table. -/
theorem run_query_empty_no_data (dt : DataTable) (st : TableState)
    (q : String) (r c : Nat) :
    (run_query dt st q (.ok [])).2.1.rowCount = 0 ∧
    (run_query dt st q (.ok [])).2.1.colCount = 1 ∧
    (run_query dt st q (.ok [])).2.1.headers = [some "No data"] ∧
    getCell (run_query dt st q (.ok [])).2.1 r c = none ∧
    (run_query dt st q (.ok [])).2.2 = false := by
  refine ⟨rfl, rfl, ?_, ?_, rfl⟩
  · show (setHorizontalHeaderLabels
      (setColumnCount (setRowCount st 0) 1) ["No data"]).headers = [some "No data"]
    rw [headers_full_set]
    · rfl
    · rfl
  · show (setHorizontalHeaderLabels
      (setColumnCount (setRowCount st 0) 1) ["No data"]).cells r c = none
    simp [setHorizontalHeaderLabels, setColumnCount, setRowCount]

/-! ### Claims about AnimatedStack -/

/-- C5: when the requested index is already current,
setCurrentIndexAnimated returns at once and the whole stack state — the
current index, every page's geometry and shown flag, the stack geometry,
and the animation state — is unchanged. -/
theorem setCurrentIndexAnimated_noop (st : AnimatedStack) (index : Nat)
    (h : index = st.currentIndex) :
    setCurrentIndexAnimated st index = st := by
  simp [setCurrentIndexAnimated, h]

theorem setCurrentIndexAnimated_noop_witness :
    ((2 : Nat) = (⟨2, ⟨220, 0, 800, 600⟩, [⟨220, 0, 800, 600⟩, ⟨220, 0, 800, 600⟩,
        ⟨800, 0, 800, 600⟩], [true, false, true], [⟨⟨800, 0, 800, 600⟩, ⟨220, 0, 800, 600⟩⟩],
        ⟨.outCubic, 400⟩⟩ : AnimatedStack).currentIndex) ∧
    setCurrentIndexAnimated
      ⟨2, ⟨220, 0, 800, 600⟩, [⟨220, 0, 800, 600⟩, ⟨220, 0, 800, 600⟩,
        ⟨800, 0, 800, 600⟩], [true, false, true], [⟨⟨800, 0, 800, 600⟩, ⟨220, 0, 800, 600⟩⟩],
        ⟨.outCubic, 400⟩⟩ 2 =
      ⟨2, ⟨220, 0, 800, 600⟩, [⟨220, 0, 800, 600⟩, ⟨220, 0, 800, 600⟩,
        ⟨800, 0, 800, 600⟩], [true, false, true], [⟨⟨800, 0, 800, 600⟩, ⟨220, 0, 800, 600⟩⟩],
        ⟨.outCubic, 400⟩⟩ :=
  ⟨rfl, setCurrentIndexAnimated_noop _ 2 rfl⟩

/-- C6 counterexample: the slide does not start from the current
rectangle shifted by one full width. On the stack geometry (220, 0,
800, 600) — the x offset is the sidebar's width — switching from page 0
to page 1 starts the animation at the rectangle with left edge 800
(width · direction, an absolute coordinate), not at left edge 220 + 800 =
1020 (the current rectangle shifted by one full width); moreover the new
page is marked current immediately, while the started animation is still
active, not after the animation. -/
theorem slide_offset_cex :
    (setCurrentIndexAnimated
      ⟨0, ⟨220, 0, 800, 600⟩, [⟨220, 0, 800, 600⟩, ⟨220, 0, 800, 600⟩,
        ⟨220, 0, 800, 600⟩, ⟨220, 0, 800, 600⟩], [true, false, false, false], [],
        ⟨.outCubic, 400⟩⟩ 1).activeAnims =
      [⟨⟨800, 0, 800, 600⟩, ⟨220, 0, 800, 600⟩⟩] ∧
    (⟨800, 0, 800, 600⟩ : Rect) ≠
      Rect.moveLeft ⟨220, 0, 800, 600⟩ (220 + 800) ∧
    (setCurrentIndexAnimated
      ⟨0, ⟨220, 0, 800, 600⟩, [⟨220, 0, 800, 600⟩, ⟨220, 0, 800, 600⟩,
        ⟨220, 0, 800, 600⟩, ⟨220, 0, 800, 600⟩], [true, false, false, false], [],
        ⟨.outCubic, 400⟩⟩ 1).currentIndex = 1 ∧
    (setCurrentIndexAnimated
      ⟨0, ⟨220, 0, 800, 600⟩, [⟨220, 0, 800, 600⟩, ⟨220, 0, 800, 600⟩,
        ⟨220, 0, 800, 600⟩, ⟨220, 0, 800, 600⟩], [true, false, false, false], [],
        ⟨.outCubic, 400⟩⟩ 1).activeAnims ≠ [] := by
  refine ⟨rfl, ?_, rfl, ?_⟩ <;> decide

/-- C6 (amended): for an index different from the current one,
setCurrentIndexAnimated places the target page at the current rectangle
with its left edge moved to the absolute coordinate width·direction
(+width when the index is greater than the current one, −width
otherwise), starts the single animation from that rectangle to the
resting (current) rectangle under the fixed 400 ms OutCubic ease-out
configuration, and immediately — with the animation still running —
marks the new page as current. -/
theorem slide_animation_spec (st : AnimatedStack) (index : Nat)
    (h : index ≠ st.currentIndex) (hp : index < st.pages.length)
    (hc : st.animConfig = ⟨.outCubic, 400⟩) :
    (setCurrentIndexAnimated st index).activeAnims =
      [⟨st.geometry.moveLeft
          (st.geometry.w * (if st.currentIndex < index then 1 else -1)),
        st.geometry⟩] ∧
    (setCurrentIndexAnimated st index).pages[index]? =
      some (st.geometry.moveLeft
        (st.geometry.w * (if st.currentIndex < index then 1 else -1))) ∧
    (setCurrentIndexAnimated st index).currentIndex = index ∧
    (setCurrentIndexAnimated st index).animConfig = ⟨.outCubic, 400⟩ := by
  unfold setCurrentIndexAnimated
  rw [if_neg h]
  refine ⟨rfl, ?_, rfl, hc⟩
  exact List.getElem?_set_self hp

theorem slide_animation_spec_witness :
    ((3 : Nat) ≠ (⟨1, ⟨220, 0, 800, 600⟩, [⟨220, 0, 800, 600⟩, ⟨220, 0, 800, 600⟩,
        ⟨220, 0, 800, 600⟩, ⟨220, 0, 800, 600⟩], [false, true, false, false], [],
        ⟨.outCubic, 400⟩⟩ : AnimatedStack).currentIndex) ∧
    ((3 : Nat) < (⟨1, ⟨220, 0, 800, 600⟩, [⟨220, 0, 800, 600⟩, ⟨220, 0, 800, 600⟩,
        ⟨220, 0, 800, 600⟩, ⟨220, 0, 800, 600⟩], [false, true, false, false], [],
        ⟨.outCubic, 400⟩⟩ : AnimatedStack).pages.length) ∧
    ((setCurrentIndexAnimated
        ⟨1, ⟨220, 0, 800, 600⟩, [⟨220, 0, 800, 600⟩, ⟨220, 0, 800, 600⟩,
          ⟨220, 0, 800, 600⟩, ⟨220, 0, 800, 600⟩], [false, true, false, false], [],
          ⟨.outCubic, 400⟩⟩ 3).activeAnims =
        [⟨⟨800, 0, 800, 600⟩, ⟨220, 0, 800, 600⟩⟩] ∧
      (setCurrentIndexAnimated
        ⟨1, ⟨220, 0, 800, 600⟩, [⟨220, 0, 800, 600⟩, ⟨220, 0, 800, 600⟩,
          ⟨220, 0, 800, 600⟩, ⟨220, 0, 800, 600⟩], [false, true, false, false], [],
          ⟨.outCubic, 400⟩⟩ 3).pages[(3 : Nat)]? =
        some ⟨800, 0, 800, 600⟩ ∧
      (setCurrentIndexAnimated
        ⟨1, ⟨220, 0, 800, 600⟩, [⟨220, 0, 800, 600⟩, ⟨220, 0, 800, 600⟩,
          ⟨220, 0, 800, 600⟩, ⟨220, 0, 800, 600⟩], [false, true, false, false], [],
          ⟨.outCubic, 400⟩⟩ 3).currentIndex = 3 ∧
      (setCurrentIndexAnimated
        ⟨1, ⟨220, 0, 800, 600⟩, [⟨220, 0, 800, 600⟩, ⟨220, 0, 800, 600⟩,
          ⟨220, 0, 800, 600⟩, ⟨220, 0, 800, 600⟩], [false, true, false, false], [],
          ⟨.outCubic, 400⟩⟩ 3).animConfig = ⟨.outCubic, 400⟩) :=
  ⟨by decide, by decide, slide_animation_spec _ 3 (by decide) (by decide) rfl⟩

lemma setCurrentIndexAnimated_anims_le (st : AnimatedStack) (i : Nat)
    (h : st.activeAnims.length ≤ 1) :
    (setCurrentIndexAnimated st i).activeAnims.length ≤ 1 := by
  unfold setCurrentIndexAnimated
  split
  · exact h
  · simp [animStart, animStop]

lemma runCalls_anims_le (calls : List Nat) (st : AnimatedStack)
    (h : st.activeAnims.length ≤ 1) :
    (runCalls st calls).activeAnims.length ≤ 1 := by
  induction calls generalizing st with
  | nil => exact h
  | cons c cs ih =>
    exact ih (setCurrentIndexAnimated st c) (setCurrentIndexAnimated_anims_le st c h)

/-- C7: at most one slide animation is ever active — the single
QPropertyAnimation is stopped by every new call before it is restarted —
so after any sequence of setCurrentIndexAnimated calls at most one
animation runs, and one further call with a new index leaves exactly the
animation of that last call active (the last call wins; nothing of an
earlier call's animation survives). -/
theorem single_active_animation (st : AnimatedStack) (calls : List Nat)
    (index : Nat) (h : st.activeAnims.length ≤ 1)
    (hne : index ≠ (runCalls st calls).currentIndex) :
    (runCalls st calls).activeAnims.length ≤ 1 ∧
    (setCurrentIndexAnimated (runCalls st calls) index).activeAnims =
      [⟨(runCalls st calls).geometry.moveLeft
          ((runCalls st calls).geometry.w *
            (if (runCalls st calls).currentIndex < index then 1 else -1)),
        (runCalls st calls).geometry⟩] := by
  refine ⟨runCalls_anims_le calls st h, ?_⟩
  unfold setCurrentIndexAnimated
  rw [if_neg hne]
  rfl

theorem single_active_animation_witness :
    ((⟨0, ⟨220, 0, 800, 600⟩, [⟨220, 0, 800, 600⟩, ⟨220, 0, 800, 600⟩,
        ⟨220, 0, 800, 600⟩, ⟨220, 0, 800, 600⟩], [true, false, false, false], [],
        ⟨.outCubic, 400⟩⟩ : AnimatedStack).activeAnims.length ≤ 1) ∧
    ((0 : Nat) ≠ (runCalls
        ⟨0, ⟨220, 0, 800, 600⟩, [⟨220, 0, 800, 600⟩, ⟨220, 0, 800, 600⟩,
          ⟨220, 0, 800, 600⟩, ⟨220, 0, 800, 600⟩], [true, false, false, false], [],
          ⟨.outCubic, 400⟩⟩ [2, 1, 3]).currentIndex) ∧
    ((runCalls
        ⟨0, ⟨220, 0, 800, 600⟩, [⟨220, 0, 800, 600⟩, ⟨220, 0, 800, 600⟩,
          ⟨220, 0, 800, 600⟩, ⟨220, 0, 800, 600⟩], [true, false, false, false], [],
          ⟨.outCubic, 400⟩⟩ [2, 1, 3]).activeAnims.length ≤ 1 ∧
      (setCurrentIndexAnimated (runCalls
        ⟨0, ⟨220, 0, 800, 600⟩, [⟨220, 0, 800, 600⟩, ⟨220, 0, 800, 600⟩,
          ⟨220, 0, 800, 600⟩, ⟨220, 0, 800, 600⟩], [true, false, false, false], [],
          ⟨.outCubic, 400⟩⟩ [2, 1, 3]) 0).activeAnims =
        [⟨⟨-800, 0, 800, 600⟩, ⟨220, 0, 800, 600⟩⟩]) :=
  ⟨by decide, by decide, single_active_animation _ [2, 1, 3] 0 (by decide) (by decide)⟩

/-- C8 counterexample: no trigger of the data-table re-runs the query on
a timer — the only event sources wired to run_query are the four
predefined-query buttons, so there is no mechanism that re-runs the query
automatically at a fixed period. -/
theorem no_timer_trigger_cex :
    dataTableTriggers.any UiTrigger.isTimer = false ∧
    dataTableTriggers.length = 4 :=
  ⟨rfl, rfl⟩

/-- C8 (amended): the data-table widget re-runs its query only on demand:
its run_query triggers are exactly the four predefined-query buttons and
none of them is a repeating timer (the module imports QTimer but never
creates one), so no fixed-interval automatic re-invocation exists. -/
theorem data_table_triggers_buttons_only :
    dataTableTriggers =
      [.buttonClick "Drumming" "SELECT TOP 10 * FROM dbo.batches",
       .buttonClick "Ewald" "SELECT TOP 10 * FROM dbo.ewald",
       .buttonClick "Convo" "SELECT TOP 10 * FROM dbo.convo",
       .buttonClick "Mixing" "SELECT TOP 10 * FROM dbo.Mixing"] ∧
    dataTableTriggers.all (fun t => !t.isTimer) = true :=
  ⟨rfl, rfl⟩

lemma setCurrentIndexAnimated_currentIndex (st : AnimatedStack) (i : Nat) :
    (setCurrentIndexAnimated st i).currentIndex =
      if i = st.currentIndex then st.currentIndex else i := by
  unfold setCurrentIndexAnimated
  split
  · rfl
  · rfl

lemma runCalls_currentIndex_lt (calls : List Nat) (st : AnimatedStack) (n : Nat)
    (hst : st.currentIndex < n) (h : ∀ c ∈ calls, c < n) :
    (runCalls st calls).currentIndex < n := by
  induction calls generalizing st with
  | nil => exact hst
  | cons c cs ih =>
    refine ih (setCurrentIndexAnimated st c) ?_ (fun d hd => h d (List.mem_cons_of_mem c hd))
    rw [setCurrentIndexAnimated_currentIndex]
    split
    · exact hst
    · exact h c (List.mem_cons_self c cs)

/-- C9 counterexample: the page selector is not 3-state. The stack built
by ModernWindow.__init__ holds four pages, the Settings button is wired
to index 3, and clicking it makes 3 the current index, which is outside
the three indices 0, 1, 2. -/
theorem four_pages_cex :
    (mkModernWindowStack ⟨0, 0, 800, 600⟩ ⟨0, 0, 800, 600⟩ ⟨0, 0, 800, 600⟩
        ⟨0, 0, 800, 600⟩ ⟨0, 0, 800, 600⟩).pages.length ≠ 3 ∧
    (3 : Nat) ∈ modernWindowNavTargets ∧
    (runCalls (mkModernWindowStack ⟨0, 0, 800, 600⟩ ⟨0, 0, 800, 600⟩
        ⟨0, 0, 800, 600⟩ ⟨0, 0, 800, 600⟩ ⟨0, 0, 800, 600⟩) [3]).currentIndex = 3 ∧
    ¬ ((runCalls (mkModernWindowStack ⟨0, 0, 800, 600⟩ ⟨0, 0, 800, 600⟩
        ⟨0, 0, 800, 600⟩ ⟨0, 0, 800, 600⟩ ⟨0, 0, 800, 600⟩) [3]).currentIndex ∈
      ([0, 1, 2] : List Nat)) := by
  refine ⟨by decide, by decide, ?_, ?_⟩ <;> decide

/-- C9 (amended): the page selector is a 4-state state machine: the
navigation stack built by ModernWindow.__init__ holds exactly four pages,
and under any sequence of clicks on the four wired sidebar buttons
(indices 0..3) every reachable current index lies in \x7b0, 1, 2, 3\x7d. -/
theorem window_four_page_selector (g p0 p1 p2 p3 : Rect) (calls : List Nat)
    (h : ∀ c ∈ calls, c ∈ modernWindowNavTargets) :
    (mkModernWindowStack g p0 p1 p2 p3).pages.length = 4 ∧
    (runCalls (mkModernWindowStack g p0 p1 p2 p3) calls).currentIndex < 4 := by
  refine ⟨rfl, ?_⟩
  refine runCalls_currentIndex_lt calls _ 4 (by show (0 : Nat) < 4; decide) ?_
  intro c hc
  have := h c hc
  simp [modernWindowNavTargets] at this
  omega

theorem window_four_page_selector_witness :
    (∀ c ∈ ([1, 3, 2, 0, 3] : List Nat), c ∈ modernWindowNavTargets) ∧
    ((mkModernWindowStack ⟨0, 0, 800, 600⟩ ⟨0, 0, 800, 600⟩ ⟨0, 0, 800, 600⟩
        ⟨0, 0, 800, 600⟩ ⟨0, 0, 800, 600⟩).pages.length = 4 ∧
      (runCalls (mkModernWindowStack ⟨0, 0, 800, 600⟩ ⟨0, 0, 800, 600⟩
        ⟨0, 0, 800, 600⟩ ⟨0, 0, 800, 600⟩ ⟨0, 0, 800, 600⟩) [1, 3, 2, 0, 3]).currentIndex < 4) :=
  ⟨by decide, window_four_page_selector ⟨0, 0, 800, 600⟩ ⟨0, 0, 800, 600⟩
    ⟨0, 0, 800, 600⟩ ⟨0, 0, 800, 600⟩ ⟨0, 0, 800, 600⟩ [1, 3, 2, 0, 3] (by decide)⟩

/-! ### The population loop of run_query -/

lemma populateRow_ok (row : Row) (cols : List String) :
    ∀ (st : TableState) (rIdx cIdx : Nat),
    (∀ k ∈ cols, (lookupRow row k).isSome = true) →
    rIdx < st.rowCount →
    cIdx + cols.length ≤ st.colCount →
    ∃ st', populateRow st row cols rIdx cIdx = .ok st' ∧
      st'.rowCount = st.rowCount ∧ st'.colCount = st.colCount ∧
      st'.headers = st.headers ∧
      (∀ r c, (r ≠ rIdx ∨ c < cIdx) → st'.cells r c = st.cells r c) ∧
      (∀ j k, cols[j]? = some k →
        st'.cells rIdx (cIdx + j) = (lookupRow row k).map pyStr) := by
  induction cols with
  | nil =>
    intro st rIdx cIdx _ _ _
    exact ⟨st, rfl, rfl, rfl, rfl, fun r c _ => rfl, fun j k hj => by simp at hj⟩
  | cons c cs ih =>
    intro st rIdx cIdx hall hr hc
    obtain ⟨v, hv⟩ :=
      Option.isSome_iff_exists.mp (hall c (List.mem_cons_self c cs))
    have hstep : populateRow st row (c :: cs) rIdx cIdx =
        populateRow (setItem st rIdx cIdx (pyStr v)) row cs rIdx (cIdx + 1) := by
      simp only [populateRow, hv]
    have hrm : rIdx < (setItem st rIdx cIdx (pyStr v)).rowCount := by
      rw [setItem_rowCount]; exact hr
    have hcm : (cIdx + 1) + cs.length ≤ (setItem st rIdx cIdx (pyStr v)).colCount := by
      rw [setItem_colCount]
      have := hc
      simp only [List.length_cons] at this
      omega
    obtain ⟨st', hrun, h1, h2, h3, hunch, hwrite⟩ :=
      ih (setItem st rIdx cIdx (pyStr v)) rIdx (cIdx + 1)
        (fun k hk => hall k (List.mem_cons_of_mem c hk)) hrm hcm
    refine ⟨st', by rw [hstep]; exact hrun, ?_, ?_, ?_, ?_, ?_⟩
    · rw [h1, setItem_rowCount]
    · rw [h2, setItem_colCount]
    · rw [h3, setItem_headers]
    · intro r cc hrc
      have h4 : st'.cells r cc = (setItem st rIdx cIdx (pyStr v)).cells r cc := by
        apply hunch
        rcases hrc with h | h
        · exact Or.inl h
        · exact Or.inr (Nat.lt_succ_of_lt h)
      rw [h4]
      apply setItem_cells_ne
      rintro ⟨rfl, rfl⟩
      rcases hrc with h | h
      · exact h rfl
      · exact Nat.lt_irrefl _ h
    · intro j k hj
      cases j with
      | zero =>
        have hk : c = k := by simpa using hj
        subst hk
        have h5 : st'.cells rIdx (cIdx + 0) =
            (setItem st rIdx cIdx (pyStr v)).cells rIdx cIdx := by
          simpa using hunch rIdx cIdx (Or.inr (Nat.lt_succ_self cIdx))
        have hcc : cIdx < st.colCount := by
          have := hc
          simp only [List.length_cons] at this
          omega
        rw [h5, setItem_cells_self st rIdx cIdx _ hr hcc, hv]
        rfl
      | succ j' =>
        have hj' : cs[j']? = some k := by simpa using hj
        have harith : cIdx + (j' + 1) = (cIdx + 1) + j' := by omega
        rw [harith]
        exact hwrite j' k hj'

lemma populate_ok (cols : List String) (rows : List Row) :
    ∀ (st : TableState) (rIdx : Nat),
    (∀ row ∈ rows, ∀ k ∈ cols, (lookupRow row k).isSome = true) →
    rIdx + rows.length ≤ st.rowCount →
    cols.length ≤ st.colCount →
    ∃ st', populate st rows cols rIdx = .ok st' ∧
      st'.rowCount = st.rowCount ∧ st'.colCount = st.colCount ∧
      st'.headers = st.headers ∧
      (∀ r c, r < rIdx → st'.cells r c = st.cells r c) ∧
      (∀ i row j k, rows[i]? = some row → cols[j]? = some k →
        st'.cells (rIdx + i) j = (lookupRow row k).map pyStr) := by
  induction rows with
  | nil =>
    intro st rIdx _ _ _
    exact ⟨st, rfl, rfl, rfl, rfl, fun r c _ => rfl, fun i row j k hi => by simp at hi⟩
  | cons row rest ih =>
    intro st rIdx hall hr hc
    have hr1 : rIdx < st.rowCount := by
      have := hr
      simp only [List.length_cons] at this
      omega
    obtain ⟨st1, hrun1, ha1, hb1, hh1, hunch1, hwrite1⟩ :=
      populateRow_ok row cols st rIdx 0
        (hall row (List.mem_cons_self row rest)) hr1 (by simpa using hc)
    have hstep : populate st (row :: rest) cols rIdx =
        populate st1 rest cols (rIdx + 1) := by
      simp only [populate, hrun1]
    obtain ⟨st', hrun, ha, hb, hh, hunch, hwrite⟩ :=
      ih st1 (rIdx + 1)
        (fun r hrm k hk => hall r (List.mem_cons_of_mem row hrm) k hk)
        (by rw [ha1]
            have := hr
            simp only [List.length_cons] at this
            omega)
        (by rw [hb1]; exact hc)
    refine ⟨st', by rw [hstep]; exact hrun, ?_, ?_, ?_, ?_, ?_⟩
    · rw [ha, ha1]
    · rw [hb, hb1]
    · rw [hh, hh1]
    · intro r c hlt
      rw [hunch r c (Nat.lt_succ_of_lt hlt)]
      exact hunch1 r c (Or.inl (Nat.ne_of_lt hlt))
    · intro i rowi j k hi hj
      cases i with
      | zero =>
        have hrow : rowi = row := by
          have := hi
          simp at this
          exact this.symm
        subst hrow
        have h6 : st'.cells rIdx j = st1.cells rIdx j :=
          hunch rIdx j (Nat.lt_succ_self rIdx)
        have h7 := hwrite1 j k hj
        simp only [Nat.zero_add] at h7
        simpa [h6] using h7
      | succ i' =>
        have hi' : rest[i']? = some rowi := by simpa using hi
        have harith : rIdx + (i' + 1) = (rIdx + 1) + i' := by omega
        rw [harith]
        exact hwrite i' rowi j k hi' hj

/-- C1: for a non-empty decoded JSON array of row objects (dicts, so each
row's keys are unique) in which every row carries all the keys of the
first row, run_query rebuilds the grid: the column count is the number of
keys of the first row, the row count is the length of the array, the
header labels are exactly the keys of the first row in order, no error
dialog is shown, and the cell at (i, j) holds the stringified value of
row i at the j-th key of the first row. -/
theorem run_query_rebuilds_grid (dt : DataTable) (st : TableState) (q : String)
    (first : Row) (rest : List Row)
    (_hkeys : ∀ row ∈ first :: rest, (row.map Prod.fst).Nodup)
    (hhom : ∀ row ∈ first :: rest, ∀ k ∈ first.map Prod.fst,
      (lookupRow row k).isSome = true) :
    (run_query dt st q (.ok (first :: rest))).2.1.colCount =
      (first.map Prod.fst).length ∧
    (run_query dt st q (.ok (first :: rest))).2.1.rowCount =
      (first :: rest).length ∧
    (run_query dt st q (.ok (first :: rest))).2.1.headers =
      (first.map Prod.fst).map some ∧
    (run_query dt st q (.ok (first :: rest))).2.2 = false ∧
    (∀ i j row k, (first :: rest)[i]? = some row →
      (first.map Prod.fst)[j]? = some k →
      getCell (run_query dt st q (.ok (first :: rest))).2.1 i j =
        (lookupRow row k).map pyStr) := by
  have hrow3 : (setHorizontalHeaderLabels
      (setRowCount (setColumnCount st (first.map Prod.fst).length)
        (first :: rest).length) (first.map Prod.fst)).rowCount =
      (first :: rest).length := rfl
  have hcol3 : (setHorizontalHeaderLabels
      (setRowCount (setColumnCount st (first.map Prod.fst).length)
        (first :: rest).length) (first.map Prod.fst)).colCount =
      (first.map Prod.fst).length := rfl
  have hhead3 : (setHorizontalHeaderLabels
      (setRowCount (setColumnCount st (first.map Prod.fst).length)
        (first :: rest).length) (first.map Prod.fst)).headers =
      (first.map Prod.fst).map some := headers_full_set _ _ rfl
  obtain ⟨st', hrun, ha, hb, hh, hunch, hwrite⟩ :=
    populate_ok (first.map Prod.fst) (first :: rest)
      (setHorizontalHeaderLabels
        (setRowCount (setColumnCount st (first.map Prod.fst).length)
          (first :: rest).length) (first.map Prod.fst)) 0 hhom
      (by rw [hrow3]; omega) (le_of_eq hcol3.symm)
  have hbody : run_query_body st (.ok (first :: rest)) = .ok st' := by
    simp only [run_query_body]
    exact hrun
  have hres : (run_query dt st q (.ok (first :: rest))).2.1 = st' := by
    simp [run_query, hbody]
  have hdlg : (run_query dt st q (.ok (first :: rest))).2.2 = false := by
    simp [run_query, hbody]
  refine ⟨?_, ?_, ?_, hdlg, ?_⟩
  · rw [hres, hb, hcol3]
  · rw [hres, ha, hrow3]
  · rw [hres, hh, hhead3]
  · intro i j row k hi hj
    have hw := hwrite i row j k hi hj
    simp only [Nat.zero_add] at hw
    rw [getCell, hres]
    exact hw

theorem run_query_rebuilds_grid_witness :
    (∀ row ∈ ([[("id", PyVal.int 1), ("name", PyVal.str "alpha")],
        [("id", PyVal.int 2), ("name", PyVal.str "beta")]] : List Row),
      (row.map Prod.fst).Nodup) ∧
    (∀ row ∈ ([[("id", PyVal.int 1), ("name", PyVal.str "alpha")],
        [("id", PyVal.int 2), ("name", PyVal.str "beta")]] : List Row),
      ∀ k ∈ ([("id", PyVal.int 1), ("name", PyVal.str "alpha")] : Row).map Prod.fst,
      (lookupRow row k).isSome = true) ∧
    ((run_query (mkDataTable "Database Browser" defaultDataTableEndpoint)
        ⟨0, 0, [], fun _ _ => none⟩ "SELECT TOP 10 * FROM dbo.batches"
        (.ok [[("id", PyVal.int 1), ("name", PyVal.str "alpha")],
          [("id", PyVal.int 2), ("name", PyVal.str "beta")]])).2.1.colCount =
        (([("id", PyVal.int 1), ("name", PyVal.str "alpha")] : Row).map Prod.fst).length ∧
      (run_query (mkDataTable "Database Browser" defaultDataTableEndpoint)
        ⟨0, 0, [], fun _ _ => none⟩ "SELECT TOP 10 * FROM dbo.batches"
        (.ok [[("id", PyVal.int 1), ("name", PyVal.str "alpha")],
          [("id", PyVal.int 2), ("name", PyVal.str "beta")]])).2.1.rowCount =
        ([[("id", PyVal.int 1), ("name", PyVal.str "alpha")],
          [("id", PyVal.int 2), ("name", PyVal.str "beta")]] : List Row).length ∧
      (run_query (mkDataTable "Database Browser" defaultDataTableEndpoint)
        ⟨0, 0, [], fun _ _ => none⟩ "SELECT TOP 10 * FROM dbo.batches"
        (.ok [[("id", PyVal.int 1), ("name", PyVal.str "alpha")],
          [("id", PyVal.int 2), ("name", PyVal.str "beta")]])).2.1.headers =
        (([("id", PyVal.int 1), ("name", PyVal.str "alpha")] : Row).map Prod.fst).map some ∧
      (run_query (mkDataTable "Database Browser" defaultDataTableEndpoint)
        ⟨0, 0, [], fun _ _ => none⟩ "SELECT TOP 10 * FROM dbo.batches"
        (.ok [[("id", PyVal.int 1), ("name", PyVal.str "alpha")],
          [("id", PyVal.int 2), ("name", PyVal.str "beta")]])).2.2 = false ∧
      (∀ i j row k,
        ([[("id", PyVal.int 1), ("name", PyVal.str "alpha")],
          [("id", PyVal.int 2), ("name", PyVal.str "beta")]] : List Row)[i]? = some row →
        (([("id", PyVal.int 1), ("name", PyVal.str "alpha")] : Row).map Prod.fst)[j]? = some k →
        getCell (run_query (mkDataTable "Database Browser" defaultDataTableEndpoint)
          ⟨0, 0, [], fun _ _ => none⟩ "SELECT TOP 10 * FROM dbo.batches"
          (.ok [[("id", PyVal.int 1), ("name", PyVal.str "alpha")],
            [("id", PyVal.int 2), ("name", PyVal.str "beta")]])).2.1 i j =
          (lookupRow row k).map pyStr)) :=
  ⟨by decide, by decide,
    run_query_rebuilds_grid (mkDataTable "Database Browser" defaultDataTableEndpoint)
      ⟨0, 0, [], fun _ _ => none⟩ "SELECT TOP 10 * FROM dbo.batches"
      [("id", PyVal.int 1), ("name", PyVal.str "alpha")]
      [[("id", PyVal.int 2), ("name", PyVal.str "beta")]]
      (by decide) (by decide)⟩
